import Mathlib

/-!
Verification of the `array_splitter` Lambda handler
(`src/sentiment_getter/functions/job_creator/array_splitter/split_result.rs`).

The handler receives a JSON array of strings, computes `midpoint = len / 2`
with integer floor division, and returns a `Response` holding the elements
before the midpoint (`chunk1`) and the elements from the midpoint on
(`chunk2`).  We embed the Rust code shallowly: `Vec<String>` becomes
`List String`, the `Result<Response, Error>` return type becomes
`Except String Response`, and `iter().take(..)` / `iter().skip(..)` become
`List.take` / `List.drop`, which have the same semantics on lists.
-/

namespace ArraySplitter

/-- Rust: `pub struct Response { pub chunk1: Vec<String>, pub chunk2: Vec<String> }`
(derives `Serialize, Deserialize, PartialEq, Debug`). -/
structure Response where
  chunk1 : List String
  chunk2 : List String
deriving DecidableEq, Repr

/-- Rust: `pub struct Event(pub Vec<String>)` — the deserialized payload,
a JSON array of strings. -/
structure Event where
  items : List String
deriving DecidableEq, Repr

/-- Invocation context supplied by `lambda_runtime` (`lambda_runtime::Context`):
request id, deadline, and similar metadata.  The handler never reads it; we
keep the two fields the spec names. -/
structure Context where
  request_id : String
  deadline : Nat
deriving DecidableEq, Repr

/-- Rust: `LambdaEvent<Event>` — pairs the deserialized payload with the
invocation context. -/
structure LambdaEvent where
  payload : Event
  context : Context
deriving DecidableEq, Repr

/-- Rust: `pub async fn function_handler(event: LambdaEvent<Event>) -> Result<Response, Error>`.
The body binds `input = event.payload.0`, `total_items = input.len()`,
`midpoint = total_items / 2`, builds
`chunk1 = input.iter().take(midpoint).cloned().collect()` and
`chunk2 = input.iter().skip(midpoint).cloned().collect()`, and returns
`Ok(Response { chunk1, chunk2 })`.  The `info!` log statements are
observational only and do not touch the returned value. -/
def function_handler (event : LambdaEvent) : Except String Response :=
  let input := event.payload.items
  let total_items := input.length
  let midpoint := total_items / 2
  let chunk1 : List String := input.take midpoint
  let chunk2 : List String := input.drop midpoint
  Except.ok { chunk1 := chunk1, chunk2 := chunk2 }

/-! ### JSON serialization of `Response`

`Response` derives serde's `Serialize`; `serde_json::to_string` renders a
struct as a JSON object whose keys are the field names in declaration
order (`chunk1` then `chunk2`), compactly (no whitespace).  We model the
JSON value produced and its compact rendering, including serde_json's
string escaping (`\"`, `\\`, the short escapes for the usual control
characters, and `\u00XX` for the remaining control characters). -/

/-- JSON values (the fragment needed for this handler: strings, arrays,
and objects with ordered keys). -/
inductive Json where
  | str : String → Json
  | arr : List Json → Json
  | obj : List (String × Json) → Json
deriving Repr

/-- The JSON value serde produces for a `Response`: an object with the two
fields in declaration order. -/
def responseToJson (r : Response) : Json :=
  Json.obj [("chunk1", Json.arr (r.chunk1.map Json.str)),
            ("chunk2", Json.arr (r.chunk2.map Json.str))]

/-- Hex digit for `\u00XX` escapes (serde_json uses lowercase hex). -/
def hexDigit (n : Nat) : Char :=
  if n < 10 then Char.ofNat (48 + n) else Char.ofNat (87 + n)

/-- serde_json's escaping of a single character inside a JSON string. -/
def escapeChar (c : Char) : String :=
  if c = '"' then "\\\""
  else if c = '\\' then "\\\\"
  else if c = '\x08' then "\\b"
  else if c = '\x0c' then "\\f"
  else if c = '\n' then "\\n"
  else if c = '\r' then "\\r"
  else if c = '\t' then "\\t"
  else if c.toNat < 32 then
    "\\u00" ++ String.singleton (hexDigit (c.toNat / 16))
            ++ String.singleton (hexDigit (c.toNat % 16))
  else String.singleton c

/-- A JSON string literal: quotes around the escaped characters. -/
def renderString (s : String) : String :=
  "\"" ++ String.join (s.data.map escapeChar) ++ "\""

mutual

/-- Compact rendering of a JSON value, as `serde_json::to_string` emits it:
no whitespace, `,` between elements, `:` between key and value. -/
def render : Json → String
  | Json.str s => renderString s
  | Json.arr xs => "[" ++ String.intercalate "," (renderElems xs) ++ "]"
  | Json.obj kvs => "\x7b" ++ String.intercalate "," (renderFields kvs) ++ "\x7d"

/-- Renderings of the elements of a JSON array, in order. -/
def renderElems : List Json → List String
  | [] => []
  | x :: xs => render x :: renderElems xs

/-- Renderings of the `key:value` fields of a JSON object, in order. -/
def renderFields : List (String × Json) → List String
  | [] => []
  | kv :: kvs => (renderString kv.1 ++ ":" ++ render kv.2) :: renderFields kvs

end

/-- `serde_json::to_string(&response)`. -/
def serializeResponse (r : Response) : String :=
  render (responseToJson r)

/-- The keys of a JSON object, in serialization order (empty for
non-objects). -/
def Json.keys : Json → List String
  | Json.obj kvs => kvs.map Prod.fst
  | _ => []

/-- A concrete invocation context used to instantiate universally
quantified statements. -/
def testContext : Context :=
  { request_id := "test-request-id", deadline := 1000 }

/-- A second, different invocation context. -/
def testContext2 : Context :=
  { request_id := "another-request-id", deadline := 99 }

/-- The five-item event of the integration test `test_with_json_input`. -/
def testEvent5 : LambdaEvent :=
  { payload := { items := ["id1", "id2", "id3", "id4", "id5"] },
    context := testContext }

/-- The response the integration test expects for `testEvent5`. -/
def testResponse5 : Response :=
  { chunk1 := ["id1", "id2"], chunk2 := ["id3", "id4", "id5"] }

/-- The empty-payload event of `test_empty_json_input`. -/
def testEventEmpty : LambdaEvent :=
  { payload := { items := [] }, context := testContext }

/-! ### Theorems -/

/-- Unfolding lemma: the handler always returns `Ok`, with `chunk1` the
first `len / 2` elements and `chunk2` the rest. -/
theorem function_handler_chunks (e : LambdaEvent) (r : Response)
    (h : function_handler e = Except.ok r) :
    r = { chunk1 := e.payload.items.take (e.payload.items.length / 2),
          chunk2 := e.payload.items.drop (e.payload.items.length / 2) } := by
  simpa [function_handler, eq_comm] using h

/-- C1: for every input list `S`, the handler returns a `Response` whose
`chunk1` is exactly the elements of `S` at indices `0 ≤ i < len(S) / 2`,
in order, and whose `chunk2` is exactly the elements at indices
`len(S) / 2 ≤ i < len(S)`, in order. -/
theorem C1_chunk_contents (e : LambdaEvent) (r : Response)
    (h : function_handler e = Except.ok r) :
    r.chunk1.length = e.payload.items.length / 2 ∧
    (∀ i, i < e.payload.items.length / 2 →
      r.chunk1[i]? = e.payload.items[i]?) ∧
    r.chunk2.length = e.payload.items.length - e.payload.items.length / 2 ∧
    (∀ i, r.chunk2[i]? = e.payload.items[e.payload.items.length / 2 + i]?) := by
  obtain rfl := function_handler_chunks e r h
  refine ⟨?_, ?_, ?_, ?_⟩
  · simp [Nat.div_le_self]
  · intro i hi
    rw [List.getElem?_take]
    simp [hi]
  · simp
  · intro i
    exact List.getElem?_drop _ _ i

/-- C1 witness: at the five-item event, the hypothesis holds by evaluation
and the conclusion specializes to concrete facts about the chunks. -/
theorem C1_chunk_contents_witness :
    function_handler testEvent5 = Except.ok testResponse5 ∧
    testResponse5.chunk1.length = testEvent5.payload.items.length / 2 ∧
    testResponse5.chunk1[1]? = testEvent5.payload.items[1]? ∧
    testResponse5.chunk2[0]? =
      testEvent5.payload.items[testEvent5.payload.items.length / 2 + 0]? :=
  ⟨rfl,
   (C1_chunk_contents testEvent5 testResponse5 rfl).1,
   (C1_chunk_contents testEvent5 testResponse5 rfl).2.1 1 (by decide),
   (C1_chunk_contents testEvent5 testResponse5 rfl).2.2.2 0⟩

/-- C2: concatenating the returned `chunk1` and `chunk2` reproduces the
input list exactly — order preserved, no duplication, no loss. -/
theorem C2_concat_reproduces_input (e : LambdaEvent) (r : Response)
    (h : function_handler e = Except.ok r) :
    r.chunk1 ++ r.chunk2 = e.payload.items := by
  obtain rfl := function_handler_chunks e r h
  exact List.take_append_drop _ _

/-- C2 witness: at the five-item event the concatenation is the input. -/
theorem C2_concat_reproduces_input_witness :
    function_handler testEvent5 = Except.ok testResponse5 ∧
    testResponse5.chunk1 ++ testResponse5.chunk2 = testEvent5.payload.items :=
  ⟨rfl, C2_concat_reproduces_input testEvent5 testResponse5 rfl⟩

/-- C3: the lengths of the two chunks sum to the length of the input. -/
theorem C3_lengths_sum (e : LambdaEvent) (r : Response)
    (h : function_handler e = Except.ok r) :
    r.chunk1.length + r.chunk2.length = e.payload.items.length := by
  obtain rfl := function_handler_chunks e r h
  simp
  omega

/-- C3 witness: at the five-item event, `2 + 3 = 5`. -/
theorem C3_lengths_sum_witness :
    function_handler testEvent5 = Except.ok testResponse5 ∧
    testResponse5.chunk1.length + testResponse5.chunk2.length =
      testEvent5.payload.items.length :=
  ⟨rfl, C3_lengths_sum testEvent5 testResponse5 rfl⟩

/-- C4: `chunk1` has length `floor(len(S) / 2)`. -/
theorem C4_chunk1_length (e : LambdaEvent) (r : Response)
    (h : function_handler e = Except.ok r) :
    r.chunk1.length = e.payload.items.length / 2 := by
  obtain rfl := function_handler_chunks e r h
  simp [Nat.div_le_self]

/-- C4 witness: at the five-item event, `chunk1` has length `5 / 2 = 2`. -/
theorem C4_chunk1_length_witness :
    function_handler testEvent5 = Except.ok testResponse5 ∧
    testResponse5.chunk1.length = testEvent5.payload.items.length / 2 :=
  ⟨rfl, C4_chunk1_length testEvent5 testResponse5 rfl⟩

/-- C5: the edge-case table. Input length 0 gives two empty chunks; length
1 gives an empty `chunk1` and a singleton `chunk2`; even length `N` gives
two chunks of length `N / 2`; odd length `N` gives `chunk1` of length
`(N - 1) / 2` and `chunk2` of length `(N + 1) / 2`, so the extra element
always lands in `chunk2`. -/
theorem C5_edge_case_table (e : LambdaEvent) (r : Response)
    (h : function_handler e = Except.ok r) :
    (e.payload.items.length = 0 → r.chunk1.length = 0 ∧ r.chunk2.length = 0) ∧
    (e.payload.items.length = 1 → r.chunk1.length = 0 ∧ r.chunk2.length = 1) ∧
    (∀ N, e.payload.items.length = N → N % 2 = 0 →
      r.chunk1.length = N / 2 ∧ r.chunk2.length = N / 2) ∧
    (∀ N, e.payload.items.length = N → N % 2 = 1 →
      r.chunk1.length = (N - 1) / 2 ∧ r.chunk2.length = (N + 1) / 2) := by
  obtain rfl := function_handler_chunks e r h
  simp only [List.length_take, List.length_drop]
  refine ⟨?_, ?_, ?_, ?_⟩ <;> (intros; omega)

/-- C5 witness: the five-item event has odd length 5, and the chunks have
lengths `(5 - 1) / 2 = 2` and `(5 + 1) / 2 = 3`. -/
theorem C5_edge_case_table_witness :
    function_handler testEvent5 = Except.ok testResponse5 ∧
    testEvent5.payload.items.length = 5 ∧ 5 % 2 = 1 ∧
    testResponse5.chunk1.length = (5 - 1) / 2 ∧
    testResponse5.chunk2.length = (5 + 1) / 2 :=
  ⟨rfl, rfl, rfl,
   ((C5_edge_case_table testEvent5 testResponse5 rfl).2.2.2 5 rfl rfl).1,
   ((C5_edge_case_table testEvent5 testResponse5 rfl).2.2.2 5 rfl rfl).2⟩

/-- C6: the handler is total and never fails. Every input — the empty list
included — yields `Ok` with some `Response`; the `Err` branch of the
`Result` return type is never taken. -/
theorem C6_total_never_fails (e : LambdaEvent) :
    (∃ r : Response, function_handler e = Except.ok r) ∧
    ∀ msg : String, function_handler e ≠ Except.error msg := by
  refine ⟨⟨_, rfl⟩, fun msg hmsg => ?_⟩
  simp [function_handler] at hmsg

/-- C6 witness: evaluated on the empty-payload event. -/
theorem C6_total_never_fails_witness :
    (∃ r : Response, function_handler testEventEmpty = Except.ok r) ∧
    ∀ msg : String, function_handler testEventEmpty ≠ Except.error msg :=
  C6_total_never_fails testEventEmpty

/-- C7: the serialized `Response` is a JSON object with exactly the two
keys `chunk1` then `chunk2`, both always present; the empty input
serializes to `\x7b"chunk1":[],"chunk2":[]\x7d`, and the five-item input
`["id1"..."id5"]` serializes to
`\x7b"chunk1":["id1","id2"],"chunk2":["id3","id4","id5"]\x7d`. -/
theorem C7_serialization_shape :
    (∀ r : Response, Json.keys (responseToJson r) = ["chunk1", "chunk2"]) ∧
    (∀ (e : LambdaEvent) (r : Response), function_handler e = Except.ok r →
      e.payload.items = [] →
      serializeResponse r = "\x7b\"chunk1\":[],\"chunk2\":[]\x7d") ∧
    (∀ (e : LambdaEvent) (r : Response), function_handler e = Except.ok r →
      e.payload.items = ["id1", "id2", "id3", "id4", "id5"] →
      serializeResponse r =
        "\x7b\"chunk1\":[\"id1\",\"id2\"],\"chunk2\":[\"id3\",\"id4\",\"id5\"]\x7d") := by
  refine ⟨fun r => rfl, ?_, ?_⟩ <;>
    · intro e r h hitems
      obtain rfl := function_handler_chunks e r h
      rw [hitems]
      decide

/-- C7 witness: the empty-input and five-item serializations, obtained by
applying the theorem at the concrete test events. -/
theorem C7_serialization_shape_witness :
    serializeResponse { chunk1 := [], chunk2 := [] } =
      "\x7b\"chunk1\":[],\"chunk2\":[]\x7d" ∧
    serializeResponse testResponse5 =
      "\x7b\"chunk1\":[\"id1\",\"id2\"],\"chunk2\":[\"id3\",\"id4\",\"id5\"]\x7d" :=
  ⟨C7_serialization_shape.2.1 testEventEmpty { chunk1 := [], chunk2 := [] } rfl rfl,
   C7_serialization_shape.2.2 testEvent5 testResponse5 rfl rfl⟩

/-- C8: the handler is deterministic — two invocations whose payload lists
are equal return equal results. -/
theorem C8_deterministic (e1 e2 : LambdaEvent)
    (h : e1.payload.items = e2.payload.items) :
    function_handler e1 = function_handler e2 := by
  simp [function_handler, h]

/-- C8 witness: two events carrying the same five-item list under
different contexts produce the same result. -/
theorem C8_deterministic_witness :
    testEvent5.payload.items =
      (LambdaEvent.mk (Event.mk ["id1", "id2", "id3", "id4", "id5"])
        testContext2).payload.items ∧
    function_handler testEvent5 =
      function_handler
        (LambdaEvent.mk (Event.mk ["id1", "id2", "id3", "id4", "id5"])
          testContext2) :=
  ⟨rfl, C8_deterministic _ _ rfl⟩

/-- C9: the result does not depend on the invocation context — for any
payload, any two contexts (request id, deadline) give the same result. -/
theorem C9_context_independent (p : Event) (c1 c2 : Context) :
    function_handler { payload := p, context := c1 } =
      function_handler { payload := p, context := c2 } := rfl

/-- C10: the chunks are balanced: `len(chunk1) ≤ len(chunk2) ≤
len(chunk1) + 1`; `chunk2` is non-empty whenever the input is non-empty,
and `chunk1` is never the longer chunk. -/
theorem C10_chunk_balance (e : LambdaEvent) (r : Response)
    (h : function_handler e = Except.ok r) :
    r.chunk1.length ≤ r.chunk2.length ∧
    r.chunk2.length ≤ r.chunk1.length + 1 ∧
    (e.payload.items ≠ [] → r.chunk2 ≠ []) := by
  obtain rfl := function_handler_chunks e r h
  refine ⟨?_, ?_, fun hne => ?_⟩
  · simp only [List.length_take, List.length_drop]
    omega
  · simp only [List.length_take, List.length_drop]
    omega
  · have hlen : 0 < e.payload.items.length := List.length_pos.mpr hne
    have : 0 < (e.payload.items.drop (e.payload.items.length / 2)).length := by
      simp only [List.length_drop]
      omega
    exact List.ne_nil_of_length_pos this

/-- C10 witness: at the five-item event, `2 ≤ 3 ≤ 3` and `chunk2` is
non-empty. -/
theorem C10_chunk_balance_witness :
    function_handler testEvent5 = Except.ok testResponse5 ∧
    testResponse5.chunk1.length ≤ testResponse5.chunk2.length ∧
    testResponse5.chunk2.length ≤ testResponse5.chunk1.length + 1 ∧
    testResponse5.chunk2 ≠ [] :=
  ⟨rfl,
   (C10_chunk_balance testEvent5 testResponse5 rfl).1,
   (C10_chunk_balance testEvent5 testResponse5 rfl).2.1,
   (C10_chunk_balance testEvent5 testResponse5 rfl).2.2 (by decide)⟩

end ArraySplitter
